import Mathlib

/-!
Shallow embedding of the `pytest-zigzag` plugin (`src/pytest_zigzag/__init__.py`):
option precedence resolution, config-file loading, qTest token validation, the
session-message buffer, and the pytest hook callbacks the plugin installs.
Python values relevant to option handling are modelled by `PyVal`; calls into
pytest / the file system / the ZigZag upload library are modelled as explicit
`Except` results supplied through environment structures.
-/

namespace PytestZigzag

/-- A Python value as the plugin's option handling sees one: `None`, a boolean
(the `--zigzag` flag is a store-true option), or a string. -/
inductive PyVal where
  | none : PyVal
  | bool : Bool → PyVal
  | str : String → PyVal
deriving DecidableEq

/-- Python truthiness of a `PyVal`: `None` is falsy, a boolean is itself, a
string is truthy iff nonempty. -/
def PyVal.truthy : PyVal → Bool
  | .none => false
  | .bool b => b
  | .str s => s != ""

/-- `_get_option_of_highest_precedence(config, option_name)`. The two pytest
lookups `config.getoption("--" + option_name)` and `config.getini(option_name)`
may each raise `ValueError` (modelled as `Except.error ()`), which the code
catches, substituting `None`; the result is `cli_option or ini_option`
(Python `or`: the first operand when truthy, else the second). -/
def _get_option_of_highest_precedence (cliRes iniRes : Except Unit PyVal) : PyVal :=
  let cli_option := match cliRes with | .ok v => v | .error _ => PyVal.none
  let ini_option := match iniRes with | .ok v => v | .error _ => PyVal.none
  if cli_option.truthy then cli_option else ini_option

/-- The character class `[a-zA-Z0-9]` of the token-validation pattern. -/
def isTokenChar (c : Char) : Bool :=
  ('a' ≤ c && c ≤ 'z') || ('A' ≤ c && c ≤ 'Z') || ('0' ≤ c && c ≤ '9')

/-- Python `re.match("^[a-zA-Z0-9]+$", token)` as a Boolean, on the string's
character list. `re.match` anchors at the start, and `$` (without
`re.MULTILINE`) matches at the end of the string or just before a single
newline at the very end; since a newline is not in the character class, the
pattern matches iff the string, after dropping one trailing newline when
present, is a nonempty run of ASCII alphanumerics. -/
def reMatchTokenPattern (cs : List Char) : Bool :=
  let core := match cs.getLast? with
    | some c => if c = '\n' then cs.dropLast else cs
    | Option.none => cs
  !core.isEmpty && core.all isTokenChar

/-- `_validate_qtest_token(token)`:
`return token if re.match("^[a-zA-Z0-9]+$", token) else ""`. -/
def _validate_qtest_token (token : String) : String :=
  if reMatchTokenPattern token.toList then token else ""

/-- A JSON value, the result of Python `json.loads`. -/
inductive JsonVal where
  | null : JsonVal
  | bool : Bool → JsonVal
  | num : Int → JsonVal
  | str : String → JsonVal
  | arr : List JsonVal → JsonVal
  | obj : List (String × JsonVal) → JsonVal

/-- The external effects `_load_config_file` performs: reading the named file
from disk (`open`/`read`, whose `OSError`/`IOError` is modelled as
`Except.error ()`), parsing the text as JSON (`json.loads`, whose `ValueError`
carries a message), and `jsonschema.validate` against the packaged schema
(whose `ValidationError` carries a message). -/
structure LoaderEnv where
  readFile : String → Except Unit String
  parseJson : String → Except String JsonVal
  validateSchema : JsonVal → Except String Unit

/-- `_load_config_file(config_file)`: reads and parses the file, validates the
result against the schema, and on any of the three failures calls
`pytest.exit(message, returncode=1)` — modelled as `Except.error` carrying the
message and the exit code — with the message naming the failing file; on
success returns the parsed mapping. -/
def _load_config_file (env : LoaderEnv) (config_file : String) :
    Except (String × Nat) JsonVal :=
  match env.readFile config_file with
  | .error _ =>
      .error ("Failed to load '" ++ config_file ++ "' config file!", 1)
  | .ok text =>
    match env.parseJson text with
    | .error e =>
        .error ("The '" ++ config_file ++ "' config file is not valid JSON: " ++ e, 1)
    | .ok config_dict =>
      match env.validateSchema config_dict with
      | .error e =>
          .error ("Config file '" ++ config_file ++ "' does not comply with schema: " ++ e, 1)
      | .ok _ => .ok config_dict

/-- Modelled from the spec: the code imports `SessionMessages` from
`pytest_zigzag.session_messages`, a module whose file is not part of the
repository snapshot. Per the spec (section 4.3), the buffer is an ordered
sequence of strings: `append(message)` adds a string to the end, `drain()`
returns and clears the sequence, and iteration yields the accumulated messages
in insertion order. -/
structure SessionMessages where
  messages : List String
deriving DecidableEq

/-- A fresh, empty session-message buffer. -/
def SessionMessages.empty : SessionMessages := ⟨[]⟩

/-- `append(message)`: adds a string to the end of the ordered sequence. -/
def SessionMessages.append (b : SessionMessages) (m : String) : SessionMessages :=
  ⟨b.messages ++ [m]⟩

/-- `drain()`: returns the accumulated messages and clears the buffer. -/
def SessionMessages.drain (b : SessionMessages) : List String × SessionMessages :=
  (b.messages, ⟨[]⟩)

/-- The parts of the pytest session state that `pytest_sessionfinish` and
`pytest_configure` read: whether the `junitxml` plugin is active, the CLI and
ini lookup results for the `zigzag` and `qtest-project-id` options, and the
fallible external steps of the upload block —
`getattr(session.config, '_xml', None).logfile` (an `AttributeError` when
`_xml` is `None`), `os.environ['QTEST_API_TOKEN']` (a `KeyError` when unset),
and `ZigZag(junit_file_path, token, qtest_project_id, None)` followed by
`upload_test_results()` (any exception, carrying `str(e)`), returning the
queue job id. -/
structure SessionEnv where
  hasJunitXml : Bool
  cliZigzag : Except Unit PyVal
  iniZigzag : Except Unit PyVal
  cliProjectId : Except Unit PyVal
  iniProjectId : Except Unit PyVal
  logfile : Except String String
  qtestApiToken : Except String String
  zigzagUpload : String → String → PyVal → Except String String

/-- The body of the `try` block in `pytest_sessionfinish`: read the junit log
file path, read the qTest token from the environment and validate it,
construct the ZigZag uploader and upload, producing the job id; an exception
raised at any of these steps is an `Except.error` carrying the exception
text. -/
def sessionUploadStep (env : SessionEnv) (qtest_project_id : PyVal) :
    Except String String := do
  let junit_file_path ← env.logfile
  let raw ← env.qtestApiToken
  let token := _validate_qtest_token raw
  env.zigzagUpload junit_file_path token qtest_project_id

/-- `pytest_sessionfinish(session)`. Returns the session-message buffer after
the hook together with whether the upload branch was entered. The hook first
drains the buffer, then, when the `junitxml` plugin is present and both the
`zigzag` and `qtest-project-id` options resolve to truthy values, runs the
upload step and appends two messages: on success the success notice and the
queue job id, and on any exception the failure notice and the original error
text; the exception is swallowed. -/
def pytest_sessionfinish (env : SessionEnv) (buf : SessionMessages) :
    SessionMessages × Bool :=
  let buf1 := (buf.drain).2
  if env.hasJunitXml then
    let zz_option := _get_option_of_highest_precedence env.cliZigzag env.iniZigzag
    let qtest_project_id := _get_option_of_highest_precedence env.cliProjectId env.iniProjectId
    if zz_option.truthy && qtest_project_id.truthy then
      match sessionUploadStep env qtest_project_id with
      | .ok job_id =>
          ((buf1.append "ZigZag upload was successful!").append
            ("Queue Job ID: " ++ job_id), true)
      | .error e =>
          ((buf1.append "The ZigZag upload was not successful").append
            ("Original error message:\n\n" ++ e), true)
    else (buf1, false)
  else (buf1, false)

/-- `pytest_terminal_summary(terminalreporter)`: iterates over the
session-message buffer and writes each message with
`terminalreporter.write_line`; the returned list is the lines written, in
order. -/
def pytest_terminal_summary (buf : SessionMessages) : List String :=
  buf.messages

/-- The module-level warning text `ZZ_WARN_MESSAGE`. -/
def ZZ_WARN_MESSAGE : String :=
  "ZigZag will not attempt upload, '--zigzag' and '--qtest-project-id' must be specified together."

/-- `pytest_configure(config)`: resolves the `zigzag` and `qtest-project-id`
options, and when at least one of them is truthy but not both
(`any([zz, qtpid]) and not all([zz, qtpid])`) calls
`config.warn(101, ZZ_WARN_MESSAGE)`; the returned value is the emitted
warning, when any. -/
def pytest_configure (env : SessionEnv) : Option (Nat × String) :=
  let zz := _get_option_of_highest_precedence env.cliZigzag env.iniZigzag
  let qtpid := _get_option_of_highest_precedence env.cliProjectId env.iniProjectId
  if (zz.truthy || qtpid.truthy) && !(zz.truthy && qtpid.truthy) then
    some (101, ZZ_WARN_MESSAGE)
  else
    Option.none

/-- Auxiliary for Python substring membership: does `pat` occur as a
contiguous run inside the character list? -/
def pyInChars (pat : List Char) : List Char → Bool
  | [] => pat.isEmpty
  | c :: cs => pat.isPrefixOf (c :: cs) || pyInChars pat cs

/-- Python substring membership `pat in s` for strings. -/
def pyInStr (pat s : String) : Bool :=
  pyInChars pat.toList s.toList

/-- The parts of a collected test item that `pytest_runtest_setup` and
`pytest_runtest_teardown` read and write: the item's keyword set, its name,
the parent's `_previousfailed` attribute (the name of the previously failed
step, when that attribute is set) and the `user_properties` list of
(key, value) pairs. -/
structure Item where
  keywords : List String
  name : String
  parentPreviousFailed : Option String
  user_properties : List (String × String)

/-- `pytest_runtest_setup(item)`: appends `('start_time', now)` and
`('end_time', now)` carrying the same timestamp, then, when the item's
keywords contain `test_case_with_steps` and its name contains neither the
substring `setup` nor `teardown`, calls `pytest.skip` if the parent recorded a
previously failed step. Returns the updated property list and the skip
message, when one is raised. -/
def pytest_runtest_setup (item : Item) (now : String) :
    List (String × String) × Option String :=
  let props := item.user_properties ++ [("start_time", now), ("end_time", now)]
  let skip :=
    if item.keywords.contains "test_case_with_steps"
        && !(pyInStr "setup" item.name) && !(pyInStr "teardown" item.name) then
      match item.parentPreviousFailed with
      | some prev => some ("because previous test failed: " ++ prev)
      | Option.none => Option.none
    else Option.none
  (props, skip)

/-- The loop of `pytest_runtest_teardown` over
`enumerate(item.user_properties)`: starting from `acc` (initially `None`) and
index `i` (initially 0), stores the index of every tuple whose first component
is `end_time`, so it ends holding the index of the last one, when any. -/
def endTimePositionFrom (acc : Option Nat) (i : Nat) :
    List (String × String) → Option Nat
  | [] => acc
  | t :: ts => endTimePositionFrom (if t.1 == "end_time" then some i else acc) (i + 1) ts

/-- `pytest_runtest_teardown(item)`: builds the tuple `('end_time', now)`,
finds the position of the (last) existing `end_time` tuple in
`item.user_properties`, and overwrites that position in place, or appends the
tuple when no such position exists. -/
def pytest_runtest_teardown (item : Item) (now : String) : List (String × String) :=
  let now_tup := ("end_time", now)
  match endTimePositionFrom Option.none 0 item.user_properties with
  | some position => item.user_properties.set position now_tup
  | Option.none => item.user_properties ++ [now_tup]

/-! ## Theorems -/

/-- Appending a list of messages one by one with `SessionMessages.append`
concatenates them, in order, after the existing contents. -/
theorem sessionMessages_foldl_append (ms : List String) (b : SessionMessages) :
    (ms.foldl SessionMessages.append b).messages = b.messages ++ ms := by
  induction ms generalizing b with
  | nil => simp
  | cons m ms ih => simp [List.foldl, SessionMessages.append, ih]

/-- Claim C8: draining the session-message buffer returns all previously
appended messages in insertion order and clears the buffer, so an immediately
following drain returns an empty result; draining an empty buffer is a
no-op. -/
theorem C8_drain_returns_and_clears (ms : List String) :
    (SessionMessages.drain (ms.foldl SessionMessages.append SessionMessages.empty)).1 = ms ∧
    (SessionMessages.drain
      (SessionMessages.drain (ms.foldl SessionMessages.append SessionMessages.empty)).2).1 = [] ∧
    SessionMessages.drain SessionMessages.empty = ([], SessionMessages.empty) := by
  refine ⟨?_, rfl, rfl⟩
  simp [SessionMessages.drain, sessionMessages_foldl_append, SessionMessages.empty]

/-- Claim C1: the configuration resolver returns the CLI flag's value when the
CLI lookup succeeds with a truthy (present and non-empty) value; otherwise it
returns the ini value when that lookup succeeds; otherwise the result is falsy.
In particular, whenever both lookups succeed and the CLI value is set, the
CLI value wins. -/
theorem C1_resolver_precedence (cliRes iniRes : Except Unit PyVal) :
    (∀ v, cliRes = .ok v → v.truthy = true →
      _get_option_of_highest_precedence cliRes iniRes = v) ∧
    (∀ w, (cliRes = .error () ∨ ∃ v, cliRes = .ok v ∧ v.truthy = false) →
      iniRes = .ok w → _get_option_of_highest_precedence cliRes iniRes = w) ∧
    ((cliRes = .error () ∨ ∃ v, cliRes = .ok v ∧ v.truthy = false) →
      iniRes = .error () →
      (_get_option_of_highest_precedence cliRes iniRes).truthy = false) ∧
    (∀ v w, cliRes = .ok v → v.truthy = true → iniRes = .ok w →
      _get_option_of_highest_precedence cliRes iniRes = v) := by
  refine ⟨?_, ?_, ?_, ?_⟩
  · rintro v rfl hv
    simp [_get_option_of_highest_precedence, hv]
  · rintro w h rfl
    rcases h with rfl | ⟨v, rfl, hv⟩
    · simp [_get_option_of_highest_precedence, PyVal.truthy]
    · simp [_get_option_of_highest_precedence, hv]
  · rintro h rfl
    rcases h with rfl | ⟨v, rfl, hv⟩
    · simp [_get_option_of_highest_precedence, PyVal.truthy]
    · simp only [_get_option_of_highest_precedence, hv]
      simp [PyVal.truthy]
  · rintro v w rfl hv rfl
    simp [_get_option_of_highest_precedence, hv]

/-- Claim C6: when neither the CLI flag nor the ini key is registered (both
lookups raise, modelled as `Except.error ()`), the resolver returns `None`
without raising — a falsy, absent result. -/
theorem C6_unregistered_options_absent :
    _get_option_of_highest_precedence (Except.error ()) (Except.error ()) = PyVal.none ∧
    (_get_option_of_highest_precedence (Except.error ()) (Except.error ())).truthy = false :=
  ⟨rfl, rfl⟩

/-- Claim C2: for every file path, the config loader aborts the process with
exit code 1 and a message containing that path on an I/O failure opening or
reading the file, on a JSON-syntax failure, or on a schema-validation failure
(e.g. when the required key is missing); on success it returns the parsed JSON
mapping. -/
theorem C2_load_config_file_exits_or_returns (env : LoaderEnv) (config_file : String) :
    (env.readFile config_file = .error () →
      ∃ a b, _load_config_file env config_file = .error (a ++ config_file ++ b, 1)) ∧
    (∀ text e, env.readFile config_file = .ok text → env.parseJson text = .error e →
      ∃ a b, _load_config_file env config_file = .error (a ++ config_file ++ b, 1)) ∧
    (∀ text d e, env.readFile config_file = .ok text → env.parseJson text = .ok d →
      env.validateSchema d = .error e →
      ∃ a b, _load_config_file env config_file = .error (a ++ config_file ++ b, 1)) ∧
    (∀ text d, env.readFile config_file = .ok text → env.parseJson text = .ok d →
      env.validateSchema d = .ok () →
      _load_config_file env config_file = .ok d) := by
  refine ⟨?_, ?_, ?_, ?_⟩
  · intro hr
    exact ⟨"Failed to load '", "' config file!", by simp [_load_config_file, hr]⟩
  · intro text e hr hp
    refine ⟨"The '", "' config file is not valid JSON: " ++ e, ?_⟩
    simp [_load_config_file, hr, hp, String.append_assoc]
  · intro text d e hr hp hv
    refine ⟨"Config file '", "' does not comply with schema: " ++ e, ?_⟩
    simp [_load_config_file, hr, hp, hv, String.append_assoc]
  · intro text d hr hp hv
    simp [_load_config_file, hr, hp, hv]

/-- Claim C4: whenever upload is enabled (junitxml present, both options
truthy) and any step of the upload block raises (modelled by the upload step
producing `Except.error e`), the session-finish hook swallows the exception
and leaves the buffer holding exactly two messages: the fixed failure notice
and a message containing the original error text. -/
theorem C4_upload_exception_buffered (env : SessionEnv) (buf : SessionMessages) (e : String)
    (hx : env.hasJunitXml = true)
    (hz : (_get_option_of_highest_precedence env.cliZigzag env.iniZigzag).truthy = true)
    (hp : (_get_option_of_highest_precedence env.cliProjectId env.iniProjectId).truthy = true)
    (hu : sessionUploadStep env
      (_get_option_of_highest_precedence env.cliProjectId env.iniProjectId) = .error e) :
    (pytest_sessionfinish env buf).1.messages =
      ["The ZigZag upload was not successful", "Original error message:\n\n" ++ e] ∧
    (∃ a, "Original error message:\n\n" ++ e = a ++ e) := by
  refine ⟨?_, "Original error message:\n\n", rfl⟩
  simp [pytest_sessionfinish, hx, hz, hp, hu, SessionMessages.drain, SessionMessages.append]

/-- Claim C4, witnessed at a concrete session environment whose upload call
raises `boom`. -/
theorem C4_upload_exception_buffered_witness :
    (pytest_sessionfinish
      ⟨true, .ok (.bool true), .error (), .ok (.str "42"), .error (),
        .ok "junit.xml", .ok "tok123", fun _ _ _ => .error "boom"⟩
      SessionMessages.empty).1.messages =
      ["The ZigZag upload was not successful", "Original error message:\n\n" ++ "boom"] ∧
    (∃ a, "Original error message:\n\n" ++ "boom" = a ++ "boom") :=
  C4_upload_exception_buffered _ SessionMessages.empty "boom" rfl rfl rfl rfl

/-- Claim C5: when upload is enabled and the upload call returns a job id, the
session-finish hook leaves the buffer holding the success notice followed by
the job-id message, and the terminal-summary hook writes each buffered message
as one line, in insertion order. -/
theorem C5_upload_success_reported (env : SessionEnv) (buf : SessionMessages) (job_id : String)
    (hx : env.hasJunitXml = true)
    (hz : (_get_option_of_highest_precedence env.cliZigzag env.iniZigzag).truthy = true)
    (hp : (_get_option_of_highest_precedence env.cliProjectId env.iniProjectId).truthy = true)
    (hu : sessionUploadStep env
      (_get_option_of_highest_precedence env.cliProjectId env.iniProjectId) = .ok job_id) :
    (pytest_sessionfinish env buf).1.messages =
      ["ZigZag upload was successful!", "Queue Job ID: " ++ job_id] ∧
    pytest_terminal_summary (pytest_sessionfinish env buf).1 =
      ["ZigZag upload was successful!", "Queue Job ID: " ++ job_id] := by
  have h : (pytest_sessionfinish env buf).1.messages =
      ["ZigZag upload was successful!", "Queue Job ID: " ++ job_id] := by
    simp [pytest_sessionfinish, hx, hz, hp, hu, SessionMessages.drain, SessionMessages.append]
  exact ⟨h, h⟩

/-- Claim C5, witnessed at a concrete session environment whose upload returns
job id `99`. -/
theorem C5_upload_success_reported_witness :
    (pytest_sessionfinish
      ⟨true, .ok (.bool true), .error (), .ok (.str "42"), .error (),
        .ok "junit.xml", .ok "tok123", fun _ _ _ => .ok "99"⟩
      SessionMessages.empty).1.messages =
      ["ZigZag upload was successful!", "Queue Job ID: " ++ "99"] ∧
    pytest_terminal_summary
      (pytest_sessionfinish
        ⟨true, .ok (.bool true), .error (), .ok (.str "42"), .error (),
          .ok "junit.xml", .ok "tok123", fun _ _ _ => .ok "99"⟩
        SessionMessages.empty).1 =
      ["ZigZag upload was successful!", "Queue Job ID: " ++ "99"] :=
  C5_upload_success_reported _ SessionMessages.empty "99" rfl rfl rfl rfl

/-- Claim C7: when exactly one of the two upload-enabling options resolves to
a set value, the configure hook emits the (non-fatal) mismatch warning and the
session-finish hook does not enter the upload branch; conversely the upload
branch runs only when both options resolve to set values. -/
theorem C7_mismatch_warns_and_skips_upload (env : SessionEnv) (buf : SessionMessages) :
    ((_get_option_of_highest_precedence env.cliZigzag env.iniZigzag).truthy ≠
        (_get_option_of_highest_precedence env.cliProjectId env.iniProjectId).truthy →
      pytest_configure env = some (101, ZZ_WARN_MESSAGE) ∧
      (pytest_sessionfinish env buf).2 = false ∧
      (pytest_sessionfinish env buf).1.messages = []) ∧
    ((pytest_sessionfinish env buf).2 = true →
      (_get_option_of_highest_precedence env.cliZigzag env.iniZigzag).truthy = true ∧
      (_get_option_of_highest_precedence env.cliProjectId env.iniProjectId).truthy = true) := by
  cases hz : (_get_option_of_highest_precedence env.cliZigzag env.iniZigzag).truthy <;>
    cases hp : (_get_option_of_highest_precedence env.cliProjectId env.iniProjectId).truthy <;>
    cases hx : env.hasJunitXml <;>
    constructor <;>
    intro h <;>
    first
      | exact absurd rfl h
      | refine ⟨?_, ?_, ?_⟩ <;>
          simp_all [pytest_configure, pytest_sessionfinish, SessionMessages.drain,
            sessionUploadStep]
      | simp_all [pytest_sessionfinish, SessionMessages.drain]

/-- Characterization of the token pattern: `^[a-zA-Z0-9]+$` matches exactly
the nonempty all-alphanumeric character lists, optionally followed by one
trailing newline. -/
theorem reMatchTokenPattern_iff (cs : List Char) :
    reMatchTokenPattern cs = true ↔
      ∃ t : List Char, t ≠ [] ∧ t.all isTokenChar = true ∧
        (cs = t ∨ cs = t ++ ['\n']) := by
  induction cs using List.reverseRecOn with
  | nil =>
    constructor
    · intro h
      exact absurd h (by simp [reMatchTokenPattern])
    · rintro ⟨t, ht, _, h | h⟩
      · exact absurd h.symm ht
      · exact absurd h (by simp)
  | append_singleton ds c _ =>
    by_cases hc : c = '\n'
    · subst hc
      have hred : reMatchTokenPattern (ds ++ ['\n']) =
          (!ds.isEmpty && ds.all isTokenChar) := by
        simp [reMatchTokenPattern, List.getLast?_concat, List.dropLast_concat]
      rw [hred]
      constructor
      · intro h
        rw [Bool.and_eq_true] at h
        refine ⟨ds, ?_, h.2, Or.inr rfl⟩
        intro hds
        subst hds
        simp at h
      · rintro ⟨t, ht, hall, h | h⟩
        · have hmem : '\n' ∈ t := h ▸ List.mem_append_right ds (List.mem_singleton_self _)
          have hch := List.all_eq_true.mp hall '\n' hmem
          simp [isTokenChar] at hch
        · have hds : ds = t := by simpa using h
          subst hds
          cases ds with
          | nil => exact absurd rfl ht
          | cons x xs => simp_all
    · have hred : reMatchTokenPattern (ds ++ [c]) =
          (!(ds ++ [c]).isEmpty && (ds ++ [c]).all isTokenChar) := by
        simp [reMatchTokenPattern, List.getLast?_concat, hc]
      rw [hred]
      constructor
      · intro h
        rw [Bool.and_eq_true] at h
        exact ⟨ds ++ [c], by simp, h.2, Or.inl rfl⟩
      · rintro ⟨t, ht, hall, h | h⟩
        · rw [h]
          cases t with
          | nil => exact absurd rfl ht
          | cons x xs => simp_all
        · have hlast : some c = some '\n' := by
            rw [← List.getLast?_concat ds, h, List.getLast?_concat]
          exact absurd (Option.some.inj hlast) hc

/-- Claim C3 counterexample: `abc123` followed by a newline contains a
non-alphanumeric character (the trailing newline), yet the validation helper
returns the string unchanged rather than the empty string, because the Python
pattern's `$` also matches just before a trailing newline. -/
theorem C3_trailing_newline_counterexample :
    (∃ c ∈ "abc123\n".toList, isTokenChar c = false) ∧
    _validate_qtest_token "abc123\n" = "abc123\n" ∧
    "abc123\n" ≠ "" := by
  refine ⟨⟨'\n', by decide, by decide⟩, by decide, by decide⟩

/-- Claim C3 (amended): the validation helper returns the string unchanged
when its characters form a nonempty run of ASCII alphanumerics optionally
followed by a single trailing newline, and returns the empty string in every
other case (in particular for strings containing a non-alphanumeric character
anywhere other than a single trailing newline). -/
theorem C3_validate_token_amended (token : String) :
    ((∃ t : List Char, t ≠ [] ∧ t.all isTokenChar = true ∧
        (token.toList = t ∨ token.toList = t ++ ['\n'])) →
      _validate_qtest_token token = token) ∧
    ((¬ ∃ t : List Char, t ≠ [] ∧ t.all isTokenChar = true ∧
        (token.toList = t ∨ token.toList = t ++ ['\n'])) →
      _validate_qtest_token token = "") := by
  constructor
  · intro h
    have hm := (reMatchTokenPattern_iff token.toList).mpr h
    rw [String.toList] at hm
    simp [_validate_qtest_token, String.toList, hm]
  · intro h
    have hm : reMatchTokenPattern token.toList = false := by
      rw [Bool.eq_false_iff]
      intro hh
      exact h ((reMatchTokenPattern_iff token.toList).mp hh)
    rw [String.toList] at hm
    simp [_validate_qtest_token, String.toList, hm]

/-- Index of the last pair with key `end_time`, by structural recursion. -/
def lastEndTimeIdx : List (String × String) → Option Nat
  | [] => Option.none
  | t :: ts =>
    match lastEndTimeIdx ts with
    | some k => some (k + 1)
    | Option.none => if t.1 == "end_time" then some 0 else Option.none

/-- The teardown hook's forward loop computes the last `end_time` index,
shifted by the starting index, falling back to the accumulator. -/
theorem endTimePositionFrom_eq (props : List (String × String)) :
    ∀ (acc : Option Nat) (i : Nat),
      endTimePositionFrom acc i props =
        match lastEndTimeIdx props with
        | some k => some (i + k)
        | Option.none => acc := by
  induction props with
  | nil => intro acc i; rfl
  | cons t ts ih =>
    intro acc i
    rw [endTimePositionFrom, ih, lastEndTimeIdx]
    cases h : lastEndTimeIdx ts with
    | some k => exact congrArg some (by omega)
    | none => cases ht : (t.1 == "end_time") <;> simp

/-- When no pair has key `end_time`, the loop reports no position. -/
theorem lastEndTimeIdx_eq_none (props : List (String × String))
    (h : ∀ p ∈ props, p.1 ≠ "end_time") : lastEndTimeIdx props = Option.none := by
  induction props with
  | nil => rfl
  | cons t ts ih =>
    rw [lastEndTimeIdx, ih fun p hp => h p (List.mem_cons_of_mem t hp)]
    have : (t.1 == "end_time") = false := by
      simpa using h t (List.mem_cons_self t ts)
    rw [this]
    simp

/-- When some pair has key `end_time`, the loop reports a position. -/
theorem lastEndTimeIdx_ne_none (props : List (String × String))
    (h : ∃ p ∈ props, p.1 = "end_time") : lastEndTimeIdx props ≠ Option.none := by
  induction props with
  | nil => simp at h
  | cons t ts ih =>
    rw [lastEndTimeIdx]
    cases hts : lastEndTimeIdx ts with
    | some j => simp
    | none =>
      rcases h with ⟨p, hp, hkey⟩
      rcases List.mem_cons.mp hp with rfl | hpts
      · simp [hkey]
      · exact absurd hts (ih ⟨p, hpts, hkey⟩)

/-- A position the loop reports indexes a pair whose key is `end_time`. -/
theorem lastEndTimeIdx_some (props : List (String × String)) :
    ∀ k, lastEndTimeIdx props = some k →
      ∃ v, props.get? k = some ("end_time", v) := by
  induction props with
  | nil => intro k h; exact absurd h (by rw [lastEndTimeIdx]; simp)
  | cons t ts ih =>
    intro k h
    rw [lastEndTimeIdx] at h
    cases hts : lastEndTimeIdx ts with
    | some j =>
      rw [hts] at h
      obtain ⟨v, hv⟩ := ih j hts
      obtain rfl : j + 1 = k := Option.some.inj h
      exact ⟨v, by simpa using hv⟩
    | none =>
      rw [hts] at h
      cases ht : (t.1 == "end_time") with
      | false => rw [ht] at h; exact absurd h (by simp)
      | true =>
        rw [ht] at h
        obtain rfl : (0 : Nat) = k := Option.some.inj (by simpa using h)
        refine ⟨t.2, ?_⟩
        have : t.1 = "end_time" := by simpa using ht
        simp [← this]

/-- Claim C9: the teardown hook overwrites an existing `end_time` entry with
the teardown timestamp — leaving every other (key, value) pair unchanged in
content and order — or appends such an entry when none exists. -/
theorem C9_teardown_overwrites_or_appends (item : Item) (now : String) :
    ((∀ p ∈ item.user_properties, p.1 ≠ "end_time") →
      pytest_runtest_teardown item now = item.user_properties ++ [("end_time", now)]) ∧
    ((∃ p ∈ item.user_properties, p.1 = "end_time") →
      ∃ n, (∃ v, item.user_properties.get? n = some ("end_time", v)) ∧
        pytest_runtest_teardown item now =
          item.user_properties.set n ("end_time", now)) := by
  constructor
  · intro h
    rw [pytest_runtest_teardown, endTimePositionFrom_eq, lastEndTimeIdx_eq_none _ h]
  · intro h
    cases hidx : lastEndTimeIdx item.user_properties with
    | none => exact absurd hidx (lastEndTimeIdx_ne_none item.user_properties h)
    | some k =>
      obtain ⟨v, hv⟩ := lastEndTimeIdx_some item.user_properties k hidx
      refine ⟨k, ⟨v, hv⟩, ?_⟩
      rw [pytest_runtest_teardown, endTimePositionFrom_eq, hidx]
      simp

/-- Claim C10: in the setup hook, an item marked as a stepped test case is
skipped for an earlier failed step only when its name contains neither
`setup` nor `teardown`; an item whose name contains either substring is never
skipped by this mechanism; and the `start_time` and `end_time` properties
appended at setup carry the same timestamp, skipped or not. -/
theorem C10_stepped_skip_guard (item : Item) (now : String) :
    ((pytest_runtest_setup item now).2 ≠ Option.none →
      item.keywords.contains "test_case_with_steps" = true ∧
      pyInStr "setup" item.name = false ∧
      pyInStr "teardown" item.name = false ∧
      item.parentPreviousFailed ≠ Option.none) ∧
    ((pyInStr "setup" item.name = true ∨ pyInStr "teardown" item.name = true) →
      (pytest_runtest_setup item now).2 = Option.none) ∧
    (pytest_runtest_setup item now).1 =
      item.user_properties ++ [("start_time", now), ("end_time", now)] := by
  have hskip : (pytest_runtest_setup item now).2 =
      if item.keywords.contains "test_case_with_steps"
          && !(pyInStr "setup" item.name) && !(pyInStr "teardown" item.name) then
        match item.parentPreviousFailed with
        | some prev => some ("because previous test failed: " ++ prev)
        | Option.none => Option.none
      else Option.none := rfl
  refine ⟨?_, ?_, rfl⟩
  · intro h
    rw [hskip] at h
    cases hcond : (item.keywords.contains "test_case_with_steps"
        && !(pyInStr "setup" item.name) && !(pyInStr "teardown" item.name)) with
    | false => rw [hcond] at h; simp at h
    | true =>
      rw [hcond] at h
      simp only [if_true] at h
      obtain ⟨⟨hk, hs⟩, htd⟩ :
          (item.keywords.contains "test_case_with_steps" = true ∧
            (!pyInStr "setup" item.name) = true) ∧
          (!pyInStr "teardown" item.name) = true := by
        rw [← Bool.and_eq_true, ← Bool.and_eq_true]
        exact hcond
      refine ⟨hk, by simpa using hs, by simpa using htd, ?_⟩
      cases hpf : item.parentPreviousFailed with
      | none => rw [hpf] at h; simp at h
      | some prev => simp
  · intro hs
    rw [hskip]
    rcases hs with hs | hs <;> rw [hs] <;> simp

end PytestZigzag
